import Mathlib

/-!
Verification of the text-indexing and retrieval pipeline of
`core/document_qa.py`: normalization, chunking with page-marker
provenance (`chunk_text_with_refs`), TF-IDF index construction
(`chunk_and_index_documents`), retrieval (`retrieve_top_chunks`) and
grounded-answer assembly (`answer_from_doc_index`).

Python strings are modelled as `List Char`; Python ints that are
manipulated by the relevant code paths are modelled as `Nat` (the code
clamps the sliding-window position at 0, and all other quantities stay
non-negative).  Functions that can raise are modelled with `Except`;
the chunking loop, which need not terminate, is modelled with an
explicit fuel parameter (`none` = the fuel bound was hit, and for each
divergence result below a theorem shows `none` for every fuel, i.e.
true non-termination).

External library behavior (Python `re`, scipy sparse-matrix truthiness,
sklearn TfidfVectorizer) is modelled from the documented behavior of
those libraries, to the extent the program observes it; each such
definition carries a comment saying what it models.
-/

def chars (s : String) : List Char := s.data

/-! ## Normalization (lines 90-91 of document_qa.py)

`txt = re.sub(r"\r\n", "\n", full_text)` followed by
`txt = re.sub(r"\n{2,}", "\n\n", txt)`.
-/

/-- Models `re.sub(r"\r\n", "\n", s)`: a single left-to-right scan
replacing each non-overlapping occurrence of CR LF by LF.  Bare CR
characters are not touched. -/
def subCRLF : List Char → List Char
  | [] => []
  | [c] => [c]
  | c :: d :: rest =>
    if c = '\r' ∧ d = '\n' then '\n' :: subCRLF rest
    else c :: subCRLF (d :: rest)

/-- Models `re.sub(r"\n{2,}", "\n\n", s)`: every maximal run of two or
more LF characters is replaced by exactly two LFs; runs of a single LF
are kept.  The scan is written as a state machine where `run` counts
the LFs already emitted in the current run (the greedy regex match of
a maximal run followed by emitting two LFs produces the same output). -/
def collapseGo : Nat → List Char → List Char
  | _, [] => []
  | run, c :: rest =>
    if c = '\n' then
      if 2 ≤ run then collapseGo run rest
      else '\n' :: collapseGo (run + 1) rest
    else c :: collapseGo 0 rest

def collapseLF (l : List Char) : List Char := collapseGo 0 l

/-- The whitespace normalization at the top of `chunk_text_with_refs`. -/
def pyNormalize (l : List Char) : List Char := collapseLF (subCRLF l)

/-- True when the list contains no CR LF pair (so the first `re.sub`
finds no match). -/
def noCRLF : List Char → Bool
  | [] => true
  | [_] => true
  | c :: d :: rest =>
    if c = '\r' ∧ d = '\n' then false else noCRLF (d :: rest)

/-- True when the list contains no three consecutive LF characters (so
the second `re.sub` finds no match). -/
def noTripleLF : List Char → Bool
  | c :: d :: e :: rest =>
    if c = '\n' ∧ d = '\n' ∧ e = '\n' then false
    else noTripleLF (d :: e :: rest)
  | _ => true

/-! ## Page-marker scan (regex `\[PAGE\s+(\d+)\]`, IGNORECASE)

`re.findall` collects the digit groups left to right;
`re.sub(pattern, "", snippet)` deletes the same matches.  Both are
modelled by one scan that returns the collected page numbers and the
text with the matches removed. -/

def digitsToNat (ds : List Char) : Nat :=
  ds.foldl (fun a c => 10 * a + (c.toNat - 48)) 0

/-- Attempt to match `\[PAGE\s+(\d+)\]` (case-insensitive) at the head
of the list; on success return the page number and the remainder after
the closing bracket. -/
def matchMarker : List Char → Option (Nat × List Char)
  | '[' :: p :: a :: g :: e :: rest =>
    if p.toLower = 'p' ∧ a.toLower = 'a' ∧ g.toLower = 'g' ∧ e.toLower = 'e' then
      let ws := rest.takeWhile Char.isWhitespace
      if ws.isEmpty then none
      else
        let r2 := rest.dropWhile Char.isWhitespace
        let ds := r2.takeWhile Char.isDigit
        if ds.isEmpty then none
        else
          match r2.dropWhile Char.isDigit with
          | ']' :: after => some (digitsToNat ds, after)
          | _ => none
    else none
  | _ => none

/-- One left-to-right scan: at each position try the marker pattern;
on a match, record the page number and drop the matched text, else
keep the character.  `fuel` only serves structural recursion; a
successful match always consumes at least six characters so
`fuel = l.length` never runs out. -/
def scanGo : Nat → List Char → List Nat × List Char
  | 0, l => ([], l)
  | _ + 1, [] => ([], [])
  | fuel + 1, c :: rest =>
    match matchMarker (c :: rest) with
    | some (n, after) =>
      let r := scanGo fuel after
      (n :: r.1, r.2)
    | none =>
      let r := scanGo fuel rest
      (r.1, c :: r.2)

/-- Page numbers appearing in the snippet, in match order, duplicates
kept — `re.findall(r"\[PAGE\s+(\d+)\]", snippet, re.IGNORECASE)`
followed by `map int`. -/
def findPageRefs (l : List Char) : List Nat := (scanGo l.length l).1

/-- The snippet with the matched markers removed —
`re.sub(r"\[PAGE\s+\d+\]", "", snippet, re.IGNORECASE)`. -/
def removeMarkers (l : List Char) : List Char := (scanGo l.length l).2

/-- Python `str.strip()`: drop leading and trailing whitespace. -/
def pstrip (l : List Char) : List Char :=
  ((l.dropWhile Char.isWhitespace).reverse.dropWhile Char.isWhitespace).reverse

/-! ## Chunking (`chunk_text_with_refs`, lines 83-117)

The Python loop is

    start = 0
    while start < length:
        end = min(length, start + chunk_size)
        snippet = txt[start:end]
        page_refs = re.findall(...); clean = re.sub(...).strip()
        if clean: append chunk
        start = end - overlap
        if start < 0: start = 0

There is no break when `end` reaches `length`, so the loop terminates
only when the recomputed `start` reaches `length`.  `Nat` subtraction
`e - overlap` models `end - overlap` followed by the clamp at 0. -/

structure Chunk where
  id : List Char
  file : List Char
  pages : List Nat
  start : Nat
  /-- the Python key is `end`, a reserved word here -/
  stop : Nat
  text : List Char
  deriving DecidableEq, Repr

/-- The local `end` of one loop iteration. -/
def winEnd (txt : List Char) (chunk_size start : Nat) : Nat :=
  min txt.length (start + chunk_size)

/-- The local `snippet = txt[start:end]` of one loop iteration. -/
def winSnippet (txt : List Char) (chunk_size start : Nat) : List Char :=
  (txt.drop start).take (winEnd txt chunk_size start - start)

/-- The local `clean_snippet` of one loop iteration. -/
def winClean (txt : List Char) (chunk_size start : Nat) : List Char :=
  pstrip (removeMarkers (winSnippet txt chunk_size start))

/-- One fuel-bounded run of the while-loop.  `none` means the fuel was
exhausted with the loop condition still true. -/
def chunkLoop (txt : List Char) (fname : List Char) (chunk_size overlap : Nat) :
    Nat → Nat → Nat → List Chunk → Option (List Chunk)
  | 0, start, _, acc =>
    if start < txt.length then none else some acc.reverse
  | fuel + 1, start, cid, acc =>
    if start < txt.length then
      if (winClean txt chunk_size start).isEmpty then
        chunkLoop txt fname chunk_size overlap fuel
          (winEnd txt chunk_size start - overlap) cid acc
      else
        chunkLoop txt fname chunk_size overlap fuel
          (winEnd txt chunk_size start - overlap) (cid + 1)
          ({ id := fname ++ chars "::chunk_" ++ Nat.toDigits 10 (cid + 1),
             file := fname,
             pages := findPageRefs (winSnippet txt chunk_size start),
             start := start, stop := winEnd txt chunk_size start,
             text := winClean txt chunk_size start } :: acc)
    else some acc.reverse

/-- `chunk_text_with_refs(full_text, fname, chunk_size, overlap)`.
The fuel `length + 1` is exact: whenever the Python loop terminates at
all (which requires `overlap = 0`, or empty text), the position `start`
strictly increases every iteration, so at most `length` iterations run;
a `none` result means the loop runs forever. -/
def chunk_text_with_refs (full_text : List Char) (fname : List Char)
    (chunk_size overlap : Nat) : Option (List Chunk) :=
  let txt := pyNormalize full_text
  chunkLoop txt fname chunk_size overlap (txt.length + 1) 0 0 []

/-! ## TF-IDF vectorizer model
(`TfidfVectorizer(stop_words="english", max_features=20000)` from
sklearn, an external dependency of `chunk_and_index_documents` and
`retrieve_top_chunks`).

The analyzer, modelled from the documented sklearn defaults:
lowercase the text; tokens are the maximal runs of word characters of
length at least 2 (token_pattern `\b\w\w+\b`); tokens in the built-in
English stop list are dropped.  The vocabulary is the alphabetically
sorted set of distinct retained tokens across the corpus, capped at
the 20000 highest-frequency terms.  The fitted matrix has one row per
corpus entry and one column per vocabulary term.

The numeric entries of the matrix are modelled only to the extent the
program ever observes them.  `retrieve_top_chunks` evaluates
`not matrix` first, and scipy sparse-matrix truthiness raises
ValueError for every shape other than 1x1 (proved below as claim C3),
so the entries are only read when the matrix is 1x1.  In that case the
single chunk entry is `tf * idf` L2-normalized over one component,
which is exactly 1, and the transformed query component is likewise
exactly 1 when the query contains the vocabulary term and 0 otherwise;
`linear_kernel` is then the product.  These exact rational values are
what `queryScore` below returns. -/

def isWordChar (c : Char) : Bool := c.isAlphanum || c = '_'

/-- Maximal runs of word characters; `cur` is the current run,
reversed. -/
def tokenGo (cur : List Char) : List Char → List (List Char)
  | [] => if cur.isEmpty then [] else [cur.reverse]
  | c :: rest =>
    if isWordChar c then tokenGo (c :: cur) rest
    else if cur.isEmpty then tokenGo [] rest
    else cur.reverse :: tokenGo [] rest

/-- The sklearn built-in English stop word list (frozenset
ENGLISH_STOP_WORDS), reproduced from the library. -/
def englishStopWords : List (List Char) :=
  [chars "a", chars "about", chars "above", chars "across", chars "after",
   chars "afterwards", chars "again", chars "against", chars "all",
   chars "almost", chars "alone", chars "along", chars "already", chars "also",
   chars "although", chars "always", chars "am", chars "among", chars "amongst",
   chars "amoungst", chars "amount", chars "an", chars "and", chars "another",
   chars "any", chars "anyhow", chars "anyone", chars "anything", chars "anyway",
   chars "anywhere", chars "are", chars "around", chars "as", chars "at",
   chars "back", chars "be", chars "became", chars "because", chars "become",
   chars "becomes", chars "becoming", chars "been", chars "before",
   chars "beforehand", chars "behind", chars "being", chars "below",
   chars "beside", chars "besides", chars "between", chars "beyond",
   chars "bill", chars "both", chars "bottom", chars "but", chars "by",
   chars "call", chars "can", chars "cannot", chars "cant", chars "co",
   chars "con", chars "could", chars "couldnt", chars "cry", chars "de",
   chars "describe", chars "detail", chars "do", chars "done", chars "down",
   chars "due", chars "during", chars "each", chars "eg", chars "eight",
   chars "either", chars "eleven", chars "else", chars "elsewhere",
   chars "empty", chars "enough", chars "etc", chars "even", chars "ever",
   chars "every", chars "everyone", chars "everything", chars "everywhere",
   chars "except", chars "few", chars "fifteen", chars "fifty", chars "fill",
   chars "find", chars "fire", chars "first", chars "five", chars "for",
   chars "former", chars "formerly", chars "forty", chars "found",
   chars "four", chars "from", chars "front", chars "full", chars "further",
   chars "get", chars "give", chars "go", chars "had", chars "has",
   chars "hasnt", chars "have", chars "he", chars "hence", chars "her",
   chars "here", chars "hereafter", chars "hereby", chars "herein",
   chars "hereupon", chars "hers", chars "herself", chars "him",
   chars "himself", chars "his", chars "how", chars "however",
   chars "hundred", chars "i", chars "ie", chars "if", chars "in",
   chars "inc", chars "indeed", chars "interest", chars "into", chars "is",
   chars "it", chars "its", chars "itself", chars "keep", chars "last",
   chars "latter", chars "latterly", chars "least", chars "less", chars "ltd",
   chars "made", chars "many", chars "may", chars "me", chars "meanwhile",
   chars "might", chars "mill", chars "mine", chars "more", chars "moreover",
   chars "most", chars "mostly", chars "move", chars "much", chars "must",
   chars "my", chars "myself", chars "name", chars "namely", chars "neither",
   chars "never", chars "nevertheless", chars "next", chars "nine",
   chars "no", chars "nobody", chars "none", chars "noone", chars "nor",
   chars "not", chars "nothing", chars "now", chars "nowhere", chars "of",
   chars "off", chars "often", chars "on", chars "once", chars "one",
   chars "only", chars "onto", chars "or", chars "other", chars "others",
   chars "otherwise", chars "our", chars "ours", chars "ourselves",
   chars "out", chars "over", chars "own", chars "part", chars "per",
   chars "perhaps", chars "please", chars "put", chars "rather", chars "re",
   chars "same", chars "see", chars "seem", chars "seemed", chars "seeming",
   chars "seems", chars "serious", chars "several", chars "she",
   chars "should", chars "show", chars "side", chars "since", chars "sincere",
   chars "six", chars "sixty", chars "so", chars "some", chars "somehow",
   chars "someone", chars "something", chars "sometime", chars "sometimes",
   chars "somewhere", chars "still", chars "such", chars "system",
   chars "take", chars "ten", chars "than", chars "that", chars "the",
   chars "their", chars "them", chars "themselves", chars "then",
   chars "thence", chars "there", chars "thereafter", chars "thereby",
   chars "therefore", chars "therein", chars "thereupon", chars "these",
   chars "they", chars "thick", chars "thin", chars "third", chars "this",
   chars "those", chars "though", chars "three", chars "through",
   chars "throughout", chars "thru", chars "thus", chars "to",
   chars "together", chars "too", chars "top", chars "toward",
   chars "towards", chars "twelve", chars "twenty", chars "two", chars "un",
   chars "under", chars "until", chars "up", chars "upon", chars "us",
   chars "very", chars "via", chars "was", chars "we", chars "well",
   chars "were", chars "what", chars "whatever", chars "when",
   chars "whence", chars "whenever", chars "where", chars "whereafter",
   chars "whereas", chars "whereby", chars "wherein", chars "whereupon",
   chars "wherever", chars "whether", chars "which", chars "while",
   chars "whither", chars "who", chars "whoever", chars "whole",
   chars "whom", chars "whose", chars "why", chars "will", chars "with",
   chars "within", chars "without", chars "would", chars "yet", chars "you",
   chars "your", chars "yours", chars "yourself", chars "yourselves"]

/-- The sklearn analyzer: lowercase, extract word-character runs of
length at least 2, drop stop words. -/
def tokensOf (l : List Char) : List (List Char) :=
  (tokenGo [] (l.map Char.toLower)).filter
    (fun t => 2 ≤ t.length && !(englishStopWords.contains t))

/-- Lexicographic comparison on char lists, as Python string `<`. -/
def lexLt : List Char → List Char → Bool
  | [], [] => false
  | [], _ :: _ => true
  | _ :: _, [] => false
  | c :: cs, d :: ds => if c = d then lexLt cs ds else decide (c < d)

/-- Insert into a sorted duplicate-free list, skipping duplicates. -/
def insertSortedDedup (t : List Char) : List (List Char) → List (List Char)
  | [] => [t]
  | u :: rest =>
    if t = u then u :: rest
    else if lexLt t u then t :: u :: rest
    else u :: insertSortedDedup t rest

def sortedDedup (ts : List (List Char)) : List (List Char) :=
  ts.foldr insertSortedDedup []

/-- Number of occurrences of token `t` across the tokenized corpus. -/
def corpusFreq (toks : List (List (List Char))) (t : List Char) : Nat :=
  (toks.map (fun doc => doc.count t)).sum

/-- Insertion sort by descending corpus frequency, ties broken by
ascending term; used only when the vocabulary cap binds. -/
def insertByFreq (toks : List (List (List Char))) (t : List Char) :
    List (List Char) → List (List Char)
  | [] => [t]
  | u :: rest =>
    if corpusFreq toks u < corpusFreq toks t ∨
        (corpusFreq toks u = corpusFreq toks t ∧ lexLt t u = true) then
      t :: u :: rest
    else u :: insertByFreq toks t rest

/-- The fitted vocabulary: alphabetically sorted distinct retained
terms; with more than `max_features = 20000` distinct terms, only the
20000 most frequent are kept (modelled from the sklearn documentation
of `max_features`). -/
def buildVocab (corpus : List (List Char)) : List (List Char) :=
  let toks := corpus.map tokensOf
  let allTerms := sortedDedup toks.flatten
  if allTerms.length ≤ 20000 then allTerms
  else sortedDedup ((allTerms.foldr (insertByFreq toks) []).take 20000)

/-- Number of stored (nonzero) entries of the fitted sparse matrix:
for each corpus row, the number of distinct vocabulary terms occurring
in it. -/
def matrixNnz (vocab : List (List Char)) (corpus : List (List Char)) : Nat :=
  (corpus.map
    (fun doc => ((sortedDedup (tokensOf doc)).filter vocab.contains).length)).sum

/-- The observable part of the fitted vectorizer and TF-IDF matrix:
vocabulary, matrix shape (`rows` x vocabulary size) and nonzero count. -/
structure Fitted where
  vocab : List (List Char)
  rows : Nat
  nnz : Nat
  deriving DecidableEq, Repr

/-- The dict returned by `chunk_and_index_documents`:
`fitted = none` models `"vectorizer": None, "matrix": None`. -/
structure IndexStruct where
  chunks : List Chunk
  fitted : Option Fitted
  deriving DecidableEq, Repr

/-- Exceptions of the Python run that the model distinguishes. -/
inductive PyError where
  /-- scipy: the truth value of a sparse matrix with more than one
  element is ambiguous; also sklearn: empty vocabulary. -/
  | valueError : PyError
  | indexError : PyError
  deriving DecidableEq, Repr

/-- Lines 129-135 of `chunk_and_index_documents`, from the collected
chunk list onwards: build the corpus of chunk texts; an empty corpus
short-circuits to a struct with no vectorizer and no matrix; otherwise
fit TF-IDF (sklearn raises ValueError when every token of every text
is filtered out, leaving an empty vocabulary). -/
def build_index (all_chunks : List Chunk) : Except PyError IndexStruct :=
  let corpus := all_chunks.map Chunk.text
  if corpus.isEmpty then
    .ok { chunks := [], fitted := none }
  else
    let vocab := buildVocab corpus
    if vocab.isEmpty then .error .valueError
    else
      .ok { chunks := all_chunks,
            fitted := some { vocab := vocab, rows := corpus.length,
                             nnz := matrixNnz vocab corpus } }

/-- The chunking phase of `chunk_and_index_documents`: chunk each
document in dict insertion order and concatenate; `none` when any
chunking call diverges. -/
def collectChunks (chunk_size overlap : Nat) :
    List (List Char × List Char) → Option (List Chunk)
  | [] => some []
  | (fname, txt) :: rest =>
    match chunk_text_with_refs txt fname chunk_size overlap with
    | none => none
    | some cs =>
      match collectChunks chunk_size overlap rest with
      | none => none
      | some more => some (cs ++ more)

/-- `chunk_and_index_documents(docs_text, chunk_size, overlap)`;
`docs_text` is a filename-to-text dict, modelled as an association
list in insertion order.  The outer `none` is divergence of the
chunking loop. -/
def chunk_and_index_documents (docs_text : List (List Char × List Char))
    (chunk_size overlap : Nat) : Option (Except PyError IndexStruct) :=
  match collectChunks chunk_size overlap docs_text with
  | none => none
  | some all => some (build_index all)

/-! ## Retrieval (`retrieve_top_chunks`, lines 140-160)

The guard is

    if not index_struct or not index_struct.get("matrix") \
       or index_struct.get("matrix").shape[0] == 0: return []

`not index_struct` is true for `None` (and for an empty dict); the
struct built above is a three-key dict, never empty, so `none` of the
`Option IndexStruct` argument covers both.  `not matrix` evaluates
scipy sparse truthiness: defined only for 1x1 matrices (`nnz != 0`);
every other shape raises ValueError. -/

/-- Scipy sparse `__bool__`, modelled from the scipy implementation:
`shape == (1, 1)` gives `nnz != 0`, anything else raises
"The truth value of an array with more than one element is ambiguous". -/
def sparseBool (rows cols nnz : Nat) : Except PyError Bool :=
  if rows = 1 ∧ cols = 1 then .ok (nnz ≠ 0) else .error .valueError

/-- Retrieval result entries (dicts with keys id, file, pages, text,
score).  Scores are exact rationals; on the only reachable scoring
path they are 0 or 1 (see the vectorizer model comment). -/
structure TopChunk where
  id : List Char
  file : List Char
  pages : List Nat
  text : List Char
  score : ℚ
  deriving DecidableEq, Repr

/-- The value of `linear_kernel(vectorizer.transform([question]),
matrix).flatten()[0]` on the only shape that reaches scoring (1x1):
the chunk row is one positive tf-idf weight L2-normalized to exactly 1,
and the transformed query is 1 on that term when the question contains
it (its single nonzero component normalizes to 1) and 0 otherwise. -/
def queryScore (vocab : List (List Char)) (question : List Char) : ℚ :=
  match vocab with
  | [t] => if (tokensOf question).contains t then 1 else 0
  | _ => 0

/-- `retrieve_top_chunks(question, index_struct, top_k)`. -/
def retrieve_top_chunks (question : List Char)
    (index_struct : Option IndexStruct) (top_k : Nat) :
    Except PyError (List TopChunk) :=
  match index_struct with
  | none => .ok []
  | some s =>
    match s.fitted with
    | none => .ok []
    | some f =>
      match sparseBool f.rows f.vocab.length f.nnz with
      | .error e => .error e
      | .ok b =>
        if !b then .ok []
        else if f.rows = 0 then .ok []
        else
          -- rows = 1 here; np.argsort(-scores) over one score is [0],
          -- truncated by [:top_k]
          if top_k = 0 then .ok []
          else
            match s.chunks with
            | [] => .error .indexError
            | c :: _ =>
              .ok [{ id := c.id, file := c.file, pages := c.pages,
                     text := c.text.take 2000,
                     score := queryScore f.vocab question }]

/-! ## Grounded answer assembly (`answer_from_doc_index`, lines 162-186) -/

/-- Reference dicts appended for each considered retrieval result. -/
structure Reference where
  file : List Char
  pages : List Nat
  snippet : List Char
  score : ℚ
  deriving DecidableEq, Repr

/-- The answer dict: `answer` text plus the reference list. -/
structure AnswerD where
  answer : List Char
  references : List Reference
  deriving DecidableEq, Repr

/-- The reference entry built from one considered result:
`{"file": t["file"], "pages": t.get("pages", []),
"snippet": snippet[:500], "score": t["score"]}`. -/
def mkRef (t : TopChunk) : Reference :=
  { file := t.file, pages := t.pages, snippet := (pstrip t.text).take 500,
    score := t.score }

/-- The local `add` of one loop iteration: the stripped text if it
fits the remaining budget, else its first `concat_limit - total`
characters (`max(0, ...)` is `Nat` subtraction). -/
def addFor (concat_limit total : Nat) (t : TopChunk) : List Char :=
  if total + (pstrip t.text).length ≤ concat_limit then pstrip t.text
  else (pstrip t.text).take (concat_limit - total)

/-- The value of `total` after one iteration: unchanged when `add` is
empty (falsy), else increased by its length. -/
def totalAfter (concat_limit total : Nat) (t : TopChunk) : Nat :=
  if (addFor concat_limit total t).isEmpty then total
  else total + (addFor concat_limit total t).length

/-- The assembly loop of `answer_from_doc_index` (lines 173-184):
strip each result text, append as much of it as the remaining
`concat_limit` budget allows (skipping empty contributions), always
append a reference for the considered result, and break once the used
budget reaches `concat_limit`.  Accumulators are kept reversed. -/
def assembleGo (concat_limit : Nat) :
    List TopChunk → Nat → List (List Char) → List Reference →
    List (List Char) × List Reference
  | [], _, parts, refs => (parts.reverse, refs.reverse)
  | t :: rest, total, parts, refs =>
    if concat_limit ≤ totalAfter concat_limit total t then
      ((if (addFor concat_limit total t).isEmpty then parts
        else addFor concat_limit total t :: parts).reverse,
       (mkRef t :: refs).reverse)
    else
      assembleGo concat_limit rest (totalAfter concat_limit total t)
        (if (addFor concat_limit total t).isEmpty then parts
         else addFor concat_limit total t :: parts)
        (mkRef t :: refs)

/-- Lines 172-186: the non-empty-results branch of
`answer_from_doc_index`, producing `"\n\n".join(parts)` and the
reference list. -/
def assembleFromRanked (top : List TopChunk) (concat_limit : Nat) : AnswerD :=
  let r := assembleGo concat_limit top 0 [] []
  { answer := (r.1.intersperse (chars "\n\n")).flatten, references := r.2 }

/-- The sentinel answer for an empty retrieval result. -/
def noMatchAnswer : AnswerD :=
  { answer := chars "No matching content found in documents.",
    references := [] }

/-- `answer_from_doc_index(question, index_struct, top_k, concat_limit)`:
retrieve, return the sentinel on an empty result list, otherwise
assemble. -/
def answer_from_doc_index (question : List Char)
    (index_struct : Option IndexStruct) (top_k : Nat) (concat_limit : Nat) :
    Except PyError AnswerD :=
  match retrieve_top_chunks question index_struct top_k with
  | .error e => .error e
  | .ok [] => .ok noMatchAnswer
  | .ok top => .ok (assembleFromRanked top concat_limit)

/-- The number of ranked results the assembly loop considers before
stopping; written with the same recursion pattern as `assembleGo`, it
counts one for every considered result (references are appended for
exactly the considered results). -/
def consideredCount (concat_limit : Nat) : List TopChunk → Nat → Nat
  | [], _ => 0
  | t :: rest, total =>
    if concat_limit ≤ totalAfter concat_limit total t then 1
    else 1 + consideredCount concat_limit rest (totalAfter concat_limit total t)

deriving instance DecidableEq for Except

/-! ## Concrete fixtures used by several claims -/

/-- The single chunk produced for document `d` with text `hello`. -/
def chunkHello : Chunk :=
  { id := chars "d::chunk_1", file := chars "d", pages := [],
    start := 0, stop := 5, text := chars "hello" }

/-- The fitted state for the one-chunk corpus `["hello"]`: a 1x1
matrix. -/
def fHello1 : Fitted := { vocab := [chars "hello"], rows := 1, nnz := 1 }

/-- The index struct built from the single document `("d", "hello")`. -/
def sHello1 : IndexStruct := { chunks := [chunkHello], fitted := some fHello1 }

def chunkHello1 : Chunk :=
  { id := chars "d1::chunk_1", file := chars "d1", pages := [],
    start := 0, stop := 5, text := chars "hello" }

def chunkHello2 : Chunk :=
  { id := chars "d2::chunk_1", file := chars "d2", pages := [],
    start := 0, stop := 5, text := chars "hello" }

/-- The fitted state for the two-identical-chunk corpus
`["hello", "hello"]`: a 2x1 matrix. -/
def fHello2 : Fitted := { vocab := [chars "hello"], rows := 2, nnz := 2 }

/-- The index struct built from documents `("d1", "hello")`,
`("d2", "hello")`, whose two chunks are byte-identical. -/
def sHello2 : IndexStruct :=
  { chunks := [chunkHello1, chunkHello2], fitted := some fHello2 }

/-- The retrieval result returned for a no-vocabulary-overlap query
against `sHello1`. -/
def topHelloZ : TopChunk :=
  { id := chars "d::chunk_1", file := chars "d", pages := [],
    text := chars "hello", score := 0 }

/-- Is offset `i` inside some produced chunk range `[start, stop)`. -/
def coveredBy (l : List Chunk) (i : Nat) : Bool :=
  l.any (fun c => c.start ≤ i && i < c.stop)

/-! ## Normalization lemmas -/

theorem noTripleLF_tail {c : Char} {l : List Char}
    (h : noTripleLF (c :: l) = true) : noTripleLF l = true := by
  match l with
  | [] => rfl
  | [d] => rfl
  | d :: e :: rest =>
    rw [noTripleLF] at h
    split at h
    · exact absurd h (by simp)
    · exact h

theorem noTripleLF_cons_ne {c : Char} (hc : c ≠ '\n') (l : List Char) :
    noTripleLF (c :: l) = noTripleLF l := by
  match l with
  | [] => rfl
  | [d] => rfl
  | d :: e :: rest =>
    rw [noTripleLF]
    rw [if_neg]
    rintro ⟨h1, -⟩
    exact hc h1

theorem noTripleLF_lf_cons_ne {c : Char} (hc : c ≠ '\n') (l : List Char) :
    noTripleLF ('\n' :: c :: l) = noTripleLF (c :: l) := by
  match l with
  | [] => rfl
  | d :: rest =>
    rw [noTripleLF]
    rw [if_neg]
    rintro ⟨-, h2, -⟩
    exact hc h2

theorem noTripleLF_lf_lf_cons_ne {c : Char} (hc : c ≠ '\n') (l : List Char) :
    noTripleLF ('\n' :: '\n' :: c :: l) = noTripleLF ('\n' :: c :: l) := by
  rw [noTripleLF]
  rw [if_neg]
  rintro ⟨-, -, h3⟩
  exact hc h3

/-- If the second regex finds no match then the collapse scan, started
in any of its three reachable states, is the identity. -/
theorem collapseGo_id (l : List Char) :
    (noTripleLF l = true → collapseGo 0 l = l) ∧
    (noTripleLF ('\n' :: l) = true → collapseGo 1 l = l) ∧
    (noTripleLF ('\n' :: '\n' :: l) = true → collapseGo 2 l = l) := by
  induction l with
  | nil => exact ⟨fun _ => rfl, fun _ => rfl, fun _ => rfl⟩
  | cons c rest ih =>
    obtain ⟨ih0, ih1, ih2⟩ := ih
    by_cases hc : c = '\n'
    · subst hc
      refine ⟨fun h => ?_, fun h => ?_, fun h => ?_⟩
      · simp only [collapseGo, if_pos rfl]
        norm_num
        exact ih1 h
      · simp only [collapseGo, if_pos rfl]
        norm_num
        exact ih2 h
      · rw [noTripleLF] at h
        rw [if_pos ⟨rfl, rfl, rfl⟩] at h
        exact absurd h (by simp)
    · refine ⟨fun h => ?_, fun h => ?_, fun h => ?_⟩
      · simp only [collapseGo, if_neg hc]
        rw [ih0 (noTripleLF_tail h)]
      · simp only [collapseGo, if_neg hc]
        rw [ih0 (noTripleLF_tail (noTripleLF_tail h))]
      · simp only [collapseGo, if_neg hc]
        rw [ih0 (noTripleLF_tail (noTripleLF_tail (noTripleLF_tail h)))]

/-- If the first regex finds no match, its substitution is the
identity. -/
theorem subCRLF_id (l : List Char) (h : noCRLF l = true) : subCRLF l = l := by
  induction l using subCRLF.induct with
  | case1 => rfl
  | case2 c => rfl
  | case3 c d rest hcd ih =>
    rw [noCRLF] at h
    rw [if_pos hcd] at h
    exact absurd h (by simp)
  | case4 c d rest hcd ih =>
    rw [noCRLF] at h
    rw [if_neg hcd] at h
    rw [subCRLF]
    rw [if_neg hcd]
    rw [ih h]

/-- The collapse scan never produces three consecutive LFs, in any of
its three reachable states (the two leading LFs of states 1 and 2 have
already been emitted). -/
theorem noTripleLF_collapseGo (l : List Char) :
    noTripleLF (collapseGo 0 l) = true ∧
    noTripleLF ('\n' :: collapseGo 1 l) = true ∧
    noTripleLF ('\n' :: '\n' :: collapseGo 2 l) = true := by
  induction l with
  | nil => exact ⟨rfl, rfl, rfl⟩
  | cons c rest ih =>
    obtain ⟨ih0, ih1, ih2⟩ := ih
    by_cases hc : c = '\n'
    · subst hc
      refine ⟨?_, ?_, ?_⟩
      · simp only [collapseGo, if_pos rfl]
        norm_num
        exact ih1
      · simp only [collapseGo, if_pos rfl]
        norm_num
        exact ih2
      · simp only [collapseGo, if_pos rfl]
        norm_num
        exact ih2
    · refine ⟨?_, ?_, ?_⟩
      · simp only [collapseGo, if_neg hc]
        rw [noTripleLF_cons_ne hc]
        exact ih0
      · simp only [collapseGo, if_neg hc]
        rw [noTripleLF_lf_cons_ne hc, noTripleLF_cons_ne hc]
        exact ih0
      · simp only [collapseGo, if_neg hc]
        rw [noTripleLF_lf_lf_cons_ne hc, noTripleLF_lf_cons_ne hc,
          noTripleLF_cons_ne hc]
        exact ih0

/-! ## Claim C10 -/

/-- C10, counterexample: the claim says normalize converts every bare
CR to LF; the code only substitutes the two-character sequence CR LF,
so a bare CR passes through unchanged. -/
theorem C10_counterexample :
    pyNormalize (chars "a\rb") = chars "a\rb" ∧
    chars "a\rb" ≠ chars "a\nb" := by
  exact ⟨by decide, by decide⟩

/-- C10, amended: normalize converts CR LF occurrences to LF but
leaves bare CR unchanged; it collapses every maximal run of two or
more LFs to exactly two LFs, so its output never contains three
consecutive LFs, and any input containing no CR LF and no three
consecutive LFs — page markers included — is returned completely
unchanged. -/
theorem C10_normalize_characterization :
    (∀ l : List Char, noCRLF l = true → noTripleLF l = true →
      pyNormalize l = l) ∧
    (∀ l : List Char, noTripleLF (pyNormalize l) = true) ∧
    pyNormalize (chars "a\r\nb\n\n\n\nc") = chars "a\nb\n\nc" := by
  refine ⟨fun l h1 h2 => ?_, fun l => ?_, by decide⟩
  · unfold pyNormalize collapseLF
    rw [subCRLF_id l h1]
    exact (collapseGo_id l).1 h2
  · exact (noTripleLF_collapseGo (subCRLF l)).1

/-- C10, witness: a string holding a page marker, a single LF and a
bare CR satisfies both hypotheses and is left unchanged. -/
theorem C10_normalize_characterization_witness :
    (noCRLF (chars "[PAGE 3]\nok\r") = true ∧
     noTripleLF (chars "[PAGE 3]\nok\r") = true) ∧
    pyNormalize (chars "[PAGE 3]\nok\r") = chars "[PAGE 3]\nok\r" :=
  ⟨⟨by decide, by decide⟩,
   C10_normalize_characterization.1 (chars "[PAGE 3]\nok\r")
     (by decide) (by decide)⟩

/-! ## Claims C2 and C4: the chunking loop never terminates once the
recomputed start stays below the text length.

With `overlap > 0`, after the final window (`end = length`) the loop
recomputes `start = length - overlap < length` and re-enters forever;
for the five-character text below with `chunk_size = 1000` the very
first iteration already recomputes `start = max(0, 5 - 200) = 0`, so
the state repeats with the chunk list growing without bound. -/

/-- C2: on text `"hello"` with the valid configuration
`chunk_size = 1000 > overlap = 200`, the loop re-enters with
`start = 0` after every iteration, so it returns `none` for every
fuel bound — the Python loop never terminates, and in particular the
iteration in which `end` reaches `len(text)` is not the last. -/
theorem C2_chunking_diverges :
    (∀ fuel cid acc,
      chunkLoop (pyNormalize (chars "hello")) (chars "doc") 1000 200
        fuel 0 cid acc = none) ∧
    chunk_text_with_refs (chars "hello") (chars "doc") 1000 200 = none := by
  have h : ∀ fuel cid acc,
      chunkLoop (pyNormalize (chars "hello")) (chars "doc") 1000 200
        fuel 0 cid acc = none := by
    intro fuel
    induction fuel with
    | zero => intro cid acc; rfl
    | succ n ih => intro cid acc; exact ih (cid + 1) _
  exact ⟨h, h 6 0 []⟩

/-- C4: no precondition is checked and no ConfigError exists: calling
the chunker with the invalid configuration `overlap = chunk_size = 1`
on text `"ab"` does not fail — the loop recomputes `start = 0` every
iteration and never terminates (`none` at every fuel bound). -/
theorem C4_no_config_error :
    (∀ fuel cid acc,
      chunkLoop (pyNormalize (chars "ab")) (chars "doc") 1 1
        fuel 0 cid acc = none) ∧
    chunk_text_with_refs (chars "ab") (chars "doc") 1 1 = none := by
  have h : ∀ fuel cid acc,
      chunkLoop (pyNormalize (chars "ab")) (chars "doc") 1 1
        fuel 0 cid acc = none := by
    intro fuel
    induction fuel with
    | zero => intro cid acc; rfl
    | succ n ih => intro cid acc; exact ih (cid + 1) _
  exact ⟨h, h 3 0 []⟩

/-! ## Claim C8 -/

/-- With `overlap = 0` and positive `chunk_size` the loop terminates
(`start` strictly increases), and every emitted chunk range is
non-empty, stops within the text and spans at most `chunk_size`. -/
theorem chunkLoop_zero_overlap (txt fname : List Char) (cs : Nat)
    (hcs : 0 < cs) :
    ∀ fuel start cid acc,
      txt.length ≤ start + fuel →
      (∀ c ∈ acc, c.start < c.stop ∧ c.stop ≤ txt.length ∧
        c.stop ≤ c.start + cs) →
      ∃ l, chunkLoop txt fname cs 0 fuel start cid acc = some l ∧
        ∀ c ∈ l, c.start < c.stop ∧ c.stop ≤ txt.length ∧
          c.stop ≤ c.start + cs := by
  intro fuel
  induction fuel with
  | zero =>
    intro start cid acc hle hacc
    refine ⟨acc.reverse, ?_, ?_⟩
    · rw [chunkLoop, if_neg (by omega)]
    · intro c hc
      exact hacc c (List.mem_reverse.mp hc)
  | succ n ih =>
    intro start cid acc hle hacc
    by_cases hstart : start < txt.length
    · have hwin : start < winEnd txt cs start ∧ winEnd txt cs start ≤ txt.length ∧
          winEnd txt cs start ≤ start + cs := by
        unfold winEnd; omega
      rw [chunkLoop, if_pos hstart]
      by_cases hclean : (winClean txt cs start).isEmpty
      · rw [if_pos hclean]
        exact ih (winEnd txt cs start - 0) cid acc (by omega) hacc
      · rw [if_neg hclean]
        refine ih (winEnd txt cs start - 0) (cid + 1) _ (by omega) ?_
        intro c hc
        rcases List.mem_cons.mp hc with hch | hmem
        · subst hch
          exact ⟨hwin.1, hwin.2.1, hwin.2.2⟩
        · exact hacc c hmem
    · refine ⟨acc.reverse, ?_, ?_⟩
      · rw [chunkLoop, if_neg hstart]
      · intro c hc
        exact hacc c (List.mem_reverse.mp hc)

/-- C8, counterexample: with `overlap = 0`, `chunk_size = 4` and text
`"AAAA    "` (length 8, no change under normalization), the second
window `[4, 8)` strips to the empty string and is dropped, so the
produced ranges are exactly `[0, 4)` and offset 5 of `[0, len(T))` is
covered by no chunk — the union of produced ranges has a gap. -/
theorem C8_counterexample :
    chunk_text_with_refs (chars "AAAA    ") (chars "doc") 4 0 =
      some [{ id := chars "doc::chunk_1", file := chars "doc", pages := [],
              start := 0, stop := 4, text := chars "AAAA" }] ∧
    pyNormalize (chars "AAAA    ") = chars "AAAA    " ∧
    (chars "AAAA    ").length = 8 ∧
    coveredBy [{ id := chars "doc::chunk_1", file := chars "doc",
                 pages := [], start := 0, stop := 4, text := chars "AAAA" }]
      5 = false := by
  exact ⟨by decide, by decide, by decide, by decide⟩

/-- C8, amended: for `overlap = 0` and `chunk_size > 0` the chunker
terminates and every produced chunk range `[start, stop)` is
non-empty, lies within `[0, length of the normalized text]` and spans
at most `chunk_size` characters; the union of produced ranges can be a
proper subset of `[0, len(T))` because windows whose cleaned text is
empty are dropped (counterexample above), and with `overlap > 0` the
loop does not terminate on non-empty text (claim C2). -/
theorem C8_ranges_in_bounds (full_text fname : List Char) (cs : Nat)
    (hcs : 0 < cs) :
    ∃ l, chunk_text_with_refs full_text fname cs 0 = some l ∧
      ∀ c ∈ l, c.start < c.stop ∧ c.stop ≤ (pyNormalize full_text).length ∧
        c.stop ≤ c.start + cs := by
  unfold chunk_text_with_refs
  exact chunkLoop_zero_overlap (pyNormalize full_text) fname cs hcs
    (pyNormalize full_text).length.succ 0 0 [] (by omega) (by simp)

/-- C8, witness for the amended theorem at text `"ab cd"`. -/
theorem C8_ranges_in_bounds_witness :
    0 < 4 ∧
    ∃ l, chunk_text_with_refs (chars "ab cd") (chars "doc") 4 0 = some l ∧
      ∀ c ∈ l, c.start < c.stop ∧ c.stop ≤ (pyNormalize (chars "ab cd")).length ∧
        c.stop ≤ c.start + 4 :=
  ⟨by decide, C8_ranges_in_bounds (chars "ab cd") (chars "doc") 4 (by decide)⟩

/-! ## Claim C6 -/

/-- The reference accumulator of the assembly loop collects exactly
one `mkRef` entry per considered result — also for results whose
contribution to the answer text is empty. -/
theorem assembleGo_refs (limit : Nat) :
    ∀ (top : List TopChunk) (total : Nat) (parts : List (List Char))
      (refs : List Reference),
      (assembleGo limit top total parts refs).2 =
        refs.reverse ++ (top.take (consideredCount limit top total)).map mkRef := by
  intro top
  induction top with
  | nil =>
    intro total parts refs
    simp [assembleGo, consideredCount]
  | cons t rest ih =>
    intro total parts refs
    rw [assembleGo, consideredCount]
    by_cases hbr : limit ≤ totalAfter limit total t
    · rw [if_pos hbr, if_pos hbr]
      simp
    · rw [if_neg hbr, if_neg hbr]
      rw [ih]
      simp [Nat.add_comm, List.take_succ_cons]

/-- The first ranked result of the budget-accounting example: stripped
text `"HELLOWORLD"` of length exactly `concat_limit = 10`. -/
def tHW : TopChunk :=
  { id := chars "a1", file := chars "d1", pages := [],
    text := chars "HELLOWORLD", score := 1 }

/-- The second ranked result of the budget-accounting example. -/
def tSS : TopChunk :=
  { id := chars "a2", file := chars "d2", pages := [],
    text := chars "SECONDSECOND", score := 1 }

/-- C6, counterexample: with `concat_limit = 10` and ranked texts
`"HELLOWORLD"` then `"SECONDSECOND"`, the first iteration uses the
whole budget and the `used >= concat_limit` break fires at its end, so
the second chunk is never considered: the reference list holds exactly
one entry and no entry for the second chunk, while the claim asserts a
Reference entry for the second chunk with its score. -/
theorem C6_counterexample :
    assembleFromRanked [tHW, tSS] 10 =
      { answer := chars "HELLOWORLD",
        references := [{ file := chars "d1", pages := [],
                         snippet := chars "HELLOWORLD", score := 1 }] } ∧
    ((assembleFromRanked [tHW, tSS] 10).references.map
      Reference.file).contains (chars "d2") = false := by
  exact ⟨by decide, by decide⟩

/-- C6, amended: a Reference entry is appended for every considered
result, even one contributing zero characters, and iteration stops at
the end of the first iteration in which `used` reaches `concat_limit`;
with `concat_limit = 10` and ranked texts `"HELLOWORLD"` then
`"SECONDSECOND"` the answer text is `"HELLOWORLD"` and the reference
list holds exactly the first chunk entry — the second chunk is never
considered. -/
theorem C6_references_follow_considered :
    (∀ (top : List TopChunk) (limit : Nat),
      (assembleFromRanked top limit).references =
        (top.take (consideredCount limit top 0)).map mkRef) ∧
    (assembleFromRanked [tHW, tSS] 10).answer = chars "HELLOWORLD" ∧
    consideredCount 10 [tHW, tSS] 0 = 1 ∧
    (assembleFromRanked [tHW, tSS] 10).references = [mkRef tHW] := by
  refine ⟨fun top limit => ?_, by decide, by decide, by decide⟩
  show (assembleGo limit top 0 [] []).2 =
    (top.take (consideredCount limit top 0)).map mkRef
  rw [assembleGo_refs]
  simp

/-! ## Claim C3 -/

/-- C3: for any index struct whose fitted TF-IDF matrix has a shape
other than 1x1 — in particular whenever the corpus holds at least two
chunks or the vocabulary at least two terms — the guard
`not index_struct.get("matrix")` evaluates scipy sparse truthiness,
which raises ValueError, so `retrieve_top_chunks` raises instead of
returning a ranked sequence; only the degenerate one-row, one-column
matrix passes the guard and reaches scoring. -/
theorem C3_sparse_guard_raises (question : List Char) (s : IndexStruct)
    (f : Fitted) (k : Nat) (hf : s.fitted = some f)
    (hshape : ¬(f.rows = 1 ∧ f.vocab.length = 1)) :
    retrieve_top_chunks question (some s) k = .error .valueError := by
  simp only [retrieve_top_chunks, hf, sparseBool]
  rw [if_neg hshape]

/-- C3, witness: the index built from the two documents
`("d1", "hello")`, `("d2", "hello")` has a 2x1 matrix, and retrieval
against it raises. -/
theorem C3_sparse_guard_raises_witness :
    (chunk_and_index_documents
        [(chars "d1", chars "hello"), (chars "d2", chars "hello")] 1200 0 =
      some (.ok sHello2) ∧
     sHello2.fitted = some fHello2 ∧
     ¬(fHello2.rows = 1 ∧ fHello2.vocab.length = 1)) ∧
    retrieve_top_chunks (chars "hello") (some sHello2) 5 =
      .error .valueError :=
  ⟨⟨by decide, rfl, by decide⟩,
   C3_sparse_guard_raises (chars "hello") sHello2 fHello2 5 rfl (by decide)⟩

/-! ## Claim C7 -/

/-- C7, counterexample: two byte-identical chunks produce a 2x1
matrix, and `retrieve_top_chunks` raises ValueError at the truthiness
guard instead of returning the two chunks sorted with the tie broken
by insertion order. -/
theorem C7_counterexample :
    chunk_and_index_documents
        [(chars "d1", chars "hello"), (chars "d2", chars "hello")] 1200 0 =
      some (.ok sHello2) ∧
    chunkHello1.text = chunkHello2.text ∧
    retrieve_top_chunks (chars "hello") (some sHello2) 5 =
      .error .valueError := by
  exact ⟨by decide, by decide, by decide⟩

/-- C7, amended: whenever `retrieve_top_chunks` returns a ranked
sequence at all it has at most one element (so it is trivially sorted
descending by score and no score tie is ever broken); for any index
holding two or more chunks — in particular two byte-identical chunks —
the call raises ValueError at the sparse truthiness guard instead of
returning them in corpus order. -/
theorem C7_result_at_most_one :
    (∀ (q : List Char) (idx : Option IndexStruct) (k : Nat)
      (res : List TopChunk),
      retrieve_top_chunks q idx k = .ok res → res.length ≤ 1) ∧
    retrieve_top_chunks (chars "hello") (some sHello2) 5 =
      .error .valueError := by
  refine ⟨fun q idx k res h => ?_, by decide⟩
  unfold retrieve_top_chunks at h
  repeat' split at h
  all_goals simp_all
  all_goals subst h
  all_goals simp

/-- C7, witness for the amended theorem: a returned one-element
result. -/
theorem C7_result_at_most_one_witness :
    retrieve_top_chunks (chars "zzz") (some sHello1) 6 = .ok [topHelloZ] ∧
    [topHelloZ].length ≤ 1 :=
  ⟨by decide, C7_result_at_most_one.1 (chars "zzz") (some sHello1) 6
    [topHelloZ] (by decide)⟩

/-! ## Claim C1 -/

/-- C1, counterexample: the index built from the single non-empty
document `("d", "hello")` (with `overlap = 0` so chunking terminates)
has a 1x1 matrix; the query `"zzz"` shares no vocabulary term with the
corpus, so its transformed vector is all-zero — yet
`retrieve_top_chunks` returns the single chunk with score 0 rather
than an empty sequence, and `answer_from_doc_index` returns that
chunk text rather than the no-match sentinel. -/
theorem C1_counterexample :
    chunk_and_index_documents [(chars "d", chars "hello")] 1200 0 =
      some (.ok sHello1) ∧
    (tokensOf (chars "zzz")).all
      (fun t => !(fHello1.vocab.contains t)) = true ∧
    retrieve_top_chunks (chars "zzz") (some sHello1) 6 = .ok [topHelloZ] ∧
    .ok [topHelloZ] ≠ (.ok [] : Except PyError (List TopChunk)) ∧
    answer_from_doc_index (chars "zzz") (some sHello1) 6 3000 =
      .ok { answer := chars "hello",
            references := [{ file := chars "d", pages := [],
                             snippet := chars "hello", score := 0 }] } ∧
    { answer := chars "hello",
      references := [{ file := chars "d", pages := [],
                       snippet := chars "hello", score := 0 }] } ≠
      noMatchAnswer := by
  exact ⟨by decide, by decide, by decide, by decide, by decide, by decide⟩

/-- C1, amended: the empty ranked sequence and the no-match sentinel
arise exactly from an empty corpus (matrix `None`), for any query;
for a non-empty corpus an all-zero query vector does not give an empty
result — with at least two chunks or terms retrieval raises (claim
C3), and against the only scorable index (one chunk, one term) the
single chunk is returned with score 0 and its text becomes the
answer. -/
theorem C1_no_match_behavior :
    (∀ (cs ov : Nat) (q : List Char) (k lim : Nat),
      chunk_and_index_documents [] cs ov =
        some (.ok { chunks := [], fitted := none }) ∧
      retrieve_top_chunks q (some { chunks := [], fitted := none }) k =
        .ok [] ∧
      answer_from_doc_index q (some { chunks := [], fitted := none }) k lim =
        .ok noMatchAnswer) ∧
    (retrieve_top_chunks (chars "zzz") (some sHello1) 6 = .ok [topHelloZ] ∧
     topHelloZ.score = 0 ∧
     answer_from_doc_index (chars "zzz") (some sHello1) 6 3000 ≠
       .ok noMatchAnswer) := by
  refine ⟨fun cs ov q k lim => ⟨rfl, rfl, rfl⟩, by decide, by decide, by decide⟩

/-! ## Claim C5 -/

/-- C5, counterexample: building an index from the empty chunk
sequence does not fail at all — no EmptyCorpusError exists in the
code; it returns the sentinel struct with no vectorizer and no
matrix. -/
theorem C5_counterexample :
    build_index [] = .ok { chunks := [], fitted := none } ∧
    (.ok { chunks := [], fitted := none } : Except PyError IndexStruct) ≠
      .error .valueError ∧
    (.ok { chunks := [], fitted := none } : Except PyError IndexStruct) ≠
      .error .indexError := by
  exact ⟨by decide, by decide, by decide⟩

/-- C5, amended: an empty chunk sequence yields the sentinel struct
(chunks empty, vectorizer and matrix `None`), not an error; a
non-empty chunk sequence yields an index struct when at least one
token survives the analyzer, and raises the sklearn empty-vocabulary
ValueError when every token of every chunk is filtered out. -/
theorem C5_build_index_behavior :
    build_index [] = .ok { chunks := [], fitted := none } ∧
    (∀ all_chunks : List Chunk, all_chunks ≠ [] →
      buildVocab (all_chunks.map Chunk.text) ≠ [] →
      build_index all_chunks =
        .ok { chunks := all_chunks,
              fitted := some
                { vocab := buildVocab (all_chunks.map Chunk.text),
                  rows := (all_chunks.map Chunk.text).length,
                  nnz := matrixNnz (buildVocab (all_chunks.map Chunk.text))
                           (all_chunks.map Chunk.text) } }) ∧
    (∀ all_chunks : List Chunk, all_chunks ≠ [] →
      buildVocab (all_chunks.map Chunk.text) = [] →
      build_index all_chunks = .error .valueError) := by
  refine ⟨by decide, fun all_chunks hne hv => ?_, fun all_chunks hne hv => ?_⟩
  · unfold build_index
    rw [if_neg (by simpa using hne), if_neg (by simpa using hv)]
  · unfold build_index
    rw [if_neg (by simpa using hne), if_pos (by simpa using hv)]

/-- C5, witness for the amended theorem at the one-chunk corpus
`["hello"]`. -/
theorem C5_build_index_behavior_witness :
    ([chunkHello] ≠ [] ∧ buildVocab ([chunkHello].map Chunk.text) ≠ []) ∧
    build_index [chunkHello] =
      .ok { chunks := [chunkHello],
            fitted := some
              { vocab := buildVocab ([chunkHello].map Chunk.text),
                rows := ([chunkHello].map Chunk.text).length,
                nnz := matrixNnz (buildVocab ([chunkHello].map Chunk.text))
                         ([chunkHello].map Chunk.text) } } :=
  ⟨⟨by decide, by decide⟩,
   C5_build_index_behavior.2.1 [chunkHello] (by decide) (by decide)⟩

/-! ## Claim C9 -/

/-- C9: retrieval is deterministic — the index built from a chunk
corpus and the ranked output (or raised error) of retrieval are strict
functions of the documents, the configuration and the query: two runs
over equal inputs produce equal indexes and equal retrieval results.
The embedding is a pure function of its arguments, as is the Python
pipeline, which uses no randomness and no order-unstable iteration
(dict iteration is insertion-ordered and `np.argsort` is
deterministic). -/
theorem C9_retrieval_deterministic
    (docs1 docs2 : List (List Char × List Char)) (cs ov : Nat)
    (q : List Char) (k : Nat) (h : docs1 = docs2) :
    chunk_and_index_documents docs1 cs ov =
      chunk_and_index_documents docs2 cs ov ∧
    (chunk_and_index_documents docs1 cs ov).map
        (Except.map (fun s => retrieve_top_chunks q (some s) k)) =
      (chunk_and_index_documents docs2 cs ov).map
        (Except.map (fun s => retrieve_top_chunks q (some s) k)) := by
  subst h
  exact ⟨rfl, rfl⟩

/-- C9, witness at a concrete two-document corpus and query. -/
theorem C9_retrieval_deterministic_witness :
    chunk_and_index_documents
        [(chars "d1", chars "hello"), (chars "d2", chars "hello")] 1200 0 =
      chunk_and_index_documents
        [(chars "d1", chars "hello"), (chars "d2", chars "hello")] 1200 0 ∧
    (chunk_and_index_documents
        [(chars "d1", chars "hello"), (chars "d2", chars "hello")] 1200 0).map
        (Except.map (fun s => retrieve_top_chunks (chars "hello") (some s) 5)) =
      (chunk_and_index_documents
        [(chars "d1", chars "hello"), (chars "d2", chars "hello")] 1200 0).map
        (Except.map (fun s => retrieve_top_chunks (chars "hello") (some s) 5)) :=
  C9_retrieval_deterministic
    [(chars "d1", chars "hello"), (chars "d2", chars "hello")]
    [(chars "d1", chars "hello"), (chars "d2", chars "hello")]
    1200 0 (chars "hello") 5 rfl
